import Mathlib

/-!
Shallow embedding of the aliasauto_invoice webhook relay (Go, two source
variants: `src/main.go` and the test-endpoint variant `src/unnamed/part_000`).

External effects (HTTP transport, JSON decoding of provider bodies, the
go-fitz PDF library, PNG encoding) are passed in as explicit function
parameters; everything the repository's own code decides (status checks,
branch order, message strings, which page is rendered, the trace of outbound
calls) is embedded faithfully from the source. Go errors are `fmt.Errorf`
strings, so fallible operations return `Except String α` carrying the same
message prefixes the source formats.

Suffix `V2` marks the test-endpoint variant's functions (from
`src/unnamed/part_000`); unsuffixed names come from `src/main.go`.
-/

namespace AliasAutoInvoice

/-- One image-resolution variant of an inbound photo (Go struct
`TelegramPhoto`), identical in both source variants. -/
structure TelegramPhoto where
  FileID : String
  FileUniqueID : String
  Width : Int
  Height : Int
  FileSize : Int
deriving Repr, DecidableEq

/-- Document descriptor of an inbound update (Go struct `TelegramDocument`,
present only in `src/main.go`). -/
structure TelegramDocument where
  FileName : String
  MimeType : String
  FileID : String
  FileUniqueID : String
  FileSize : Int
deriving Repr, DecidableEq

/-- Sender of an inbound message (Go struct `TelegramUser`). -/
structure TelegramUser where
  ID : Int
  IsBot : Bool
  FirstName : String
  Username : String
deriving Repr, DecidableEq

/-- Chat an inbound message belongs to (Go struct `TelegramChat`; the Go
field `Type` is rendered `ChatType` because `Type` is reserved in Lean). -/
structure TelegramChat where
  ID : Int
  ChatType : String
  Title : String
deriving Repr, DecidableEq

/-- Inbound message of `src/main.go`: photo list plus optional document
(Go struct `TelegramMessage`, `Document *TelegramDocument`). -/
structure TelegramMessage where
  MessageID : Int
  From : TelegramUser
  Chat : TelegramChat
  Date : Int
  Text : String
  Photo : List TelegramPhoto
  Document : Option TelegramDocument
deriving Repr, DecidableEq

/-- Inbound update of `src/main.go` (Go struct `TelegramUpdate`). -/
structure TelegramUpdate where
  UpdateID : Int
  Message : TelegramMessage
deriving Repr, DecidableEq

/-- Inbound message of the test-endpoint variant `src/unnamed/part_000`:
its `TelegramMessage` has no `Document` field. -/
structure TelegramMessageV2 where
  MessageID : Int
  From : TelegramUser
  Chat : TelegramChat
  Date : Int
  Text : String
  Photo : List TelegramPhoto
deriving Repr, DecidableEq

/-- Inbound update of the test-endpoint variant `src/unnamed/part_000`. -/
structure TelegramUpdateV2 where
  UpdateID : Int
  Message : TelegramMessageV2
deriving Repr, DecidableEq

/-- Message inside one completion choice of the provider's response
(anonymous struct inside Go `OpenAIResponse.Choices`). -/
structure ChoiceMessage where
  Role : String
  Content : String
deriving Repr, DecidableEq

/-- One completion choice of the provider's response. -/
structure OpenAIChoice where
  Index : Int
  Message : ChoiceMessage
  FinishReason : String
deriving Repr, DecidableEq

/-- Decoded provider response shape (Go struct `OpenAIResponse`), identical
in both source variants. -/
structure OpenAIResponse where
  ID : String
  Object : String
  Created : Int
  Model : String
  Choices : List OpenAIChoice
deriving Repr, DecidableEq

/-- Outcome of one outbound HTTP exchange as the Go code observes it after
`client.Do` and `io.ReadAll`: a status code and the full body. Transport
failures (request build, `client.Do`, body read) are the `Except.error`
side of the `Except String HttpResponse` the embedding passes around. -/
structure HttpResponse where
  statusCode : Nat
  body : String
deriving Repr, DecidableEq

/-- Vision extractor of `src/main.go` (`extractTextFromImage`, lines
299-333): on a delivered response it first checks `resp.StatusCode != 200`
and fails with the `OpenAI API error` message built from the raw body
(the spec's `ProviderResponseError`) before any decode; only a 200 body is
decoded (`ProviderParseError` on failure), and a decoded response with no
choices fails with `no response from OpenAI` (`NoChoicesError`).
`transport` is the exchange's outcome; `decodeResponse` is
`json.Unmarshal` into `OpenAIResponse` (`none` = decode error). -/
def extractTextFromImage (transport : Except String HttpResponse)
    (decodeResponse : String → Option OpenAIResponse) : Except String String :=
  match transport with
  | Except.error e => Except.error ("failed to make request: " ++ e)
  | Except.ok resp =>
    if resp.statusCode ≠ 200 then
      Except.error ("OpenAI API error: " ++ resp.body)
    else
      match decodeResponse resp.body with
      | none => Except.error "failed to parse OpenAI response"
      | some openAIResponse =>
        match openAIResponse.Choices with
        | [] => Except.error "no response from OpenAI"
        | choice :: _ => Except.ok choice.Message.Content

/-- Vision extractor for inlined base64 images of `src/main.go`
(`extractTextFromImageBase64`, lines 422-485): same control flow as
`extractTextFromImage`, including the `resp.StatusCode != 200` check. -/
def extractTextFromImageBase64 (transport : Except String HttpResponse)
    (decodeResponse : String → Option OpenAIResponse) : Except String String :=
  match transport with
  | Except.error e => Except.error ("failed to make request: " ++ e)
  | Except.ok resp =>
    if resp.statusCode ≠ 200 then
      Except.error ("OpenAI API error: " ++ resp.body)
    else
      match decodeResponse resp.body with
      | none => Except.error "failed to parse OpenAI response"
      | some openAIResponse =>
        match openAIResponse.Choices with
        | [] => Except.error "no response from OpenAI"
        | choice :: _ => Except.ok choice.Message.Content

/-- Vision extractor of the test-endpoint variant
(`src/unnamed/part_000` `extractTextFromImage`, lines 328-388): it never
inspects `resp.StatusCode` — every delivered body is decoded directly,
whatever the status was. -/
def extractTextFromImageV2 (transport : Except String HttpResponse)
    (decodeResponse : String → Option OpenAIResponse) : Except String String :=
  match transport with
  | Except.error e => Except.error ("failed to make request: " ++ e)
  | Except.ok resp =>
    match decodeResponse resp.body with
    | none => Except.error "failed to parse OpenAI response"
    | some openAIResponse =>
      match openAIResponse.Choices with
      | [] => Except.error "no response from OpenAI"
      | choice :: _ => Except.ok choice.Message.Content

/-- Base64 vision extractor of the test-endpoint variant
(`src/unnamed/part_000` `extractTextFromImageBase64`, lines 390-449): like
`extractTextFromImageV2`, no status check. -/
def extractTextFromImageBase64V2 (transport : Except String HttpResponse)
    (decodeResponse : String → Option OpenAIResponse) : Except String String :=
  match transport with
  | Except.error e => Except.error ("failed to make request: " ++ e)
  | Except.ok resp =>
    match decodeResponse resp.body with
    | none => Except.error "failed to parse OpenAI response"
    | some openAIResponse =>
      match openAIResponse.Choices with
      | [] => Except.error "no response from OpenAI"
      | choice :: _ => Except.ok choice.Message.Content

/-- Notifier text path of `src/main.go` (`sendTelegramMessage`, lines
487-513): fails on transport error, and on a delivered response checks
`resp.StatusCode != 200` and fails with the `telegram API error` message
(the spec's `NotifyError`). -/
def sendTelegramMessage (transport : Except String HttpResponse) :
    Except String Unit :=
  match transport with
  | Except.error e => Except.error ("failed to send message: " ++ e)
  | Except.ok resp =>
    if resp.statusCode ≠ 200 then
      Except.error ("telegram API error: " ++ resp.body)
    else
      Except.ok ()

/-- Notifier text path of the test-endpoint variant (`src/unnamed/part_000`
`sendTelegramMessage`, lines 451-472): after a successful `http.Post` it
returns nil without ever reading `resp.StatusCode`. -/
def sendTelegramMessageV2 (transport : Except String HttpResponse) :
    Except String Unit :=
  match transport with
  | Except.error e => Except.error ("failed to send message: " ++ e)
  | Except.ok _ => Except.ok ()

/-- One outbound call the webhook handler makes while processing one inbound
update, named after the Go helper invoked. The handler returns the ordered
trace of these. -/
inductive OutCall where
  | downloadImage (fileID : String)
  | downloadDocument (fileID : String)
  | downloadFileContent (url : String)
  | extractTextFromImage (imageURL : String)
  | extractTextFromPDFToImagesWithImage (pdfContent : List Nat)
  | sendTelegramMessage (chatID : Int) (text : String)
  | sendImageToTelegram (chatID : Int) (caption : String)
deriving Repr, DecidableEq

/-- Behavior of the helper operations `handleWebhook` of `src/main.go`
sequences, as the handler observes them: each field is the result the named
Go function returns for a given argument within one request. -/
structure Env where
  downloadImage : String → Except String String
  extractTextFromImage : String → Except String String
  downloadDocument : String → Except String String
  downloadFileContent : String → Except String (List Nat)
  extractTextFromPDFToImagesWithImage :
    List Nat → Except String (String × List Nat)

/-- Behavior of the helper operations the test-endpoint variant's
`handleWebhook` sequences (it has no document flow). -/
structure EnvV2 where
  downloadImage : String → Except String String
  extractTextFromImage : String → Except String String

/-- HTTP acknowledgment of the webhook handler: Gin `c.JSON(400, ...)` with
the `Invalid JSON` error body, or `c.JSON(200, ...)` with the
`status: ok` body. -/
inductive Ack where
  | invalidJSON
  | ok
deriving Repr, DecidableEq

/-- HTTP status code each acknowledgment carries in the Go source. -/
def Ack.httpStatus : Ack → Nat
  | Ack.invalidJSON => 400
  | Ack.ok => 200

/-- Fixed user-facing string sent when the image download fails
(`src/main.go` line 172, `src/unnamed/part_000` line 177). -/
def imageDownloadFailText : String :=
  "Sorry, I couldn't download the image. Please try again."

/-- Fixed user-facing string sent when image text extraction fails
(`src/main.go` line 181, `src/unnamed/part_000` line 189). -/
def imageExtractFailText : String :=
  "Sorry, I couldn't extract any text from this image. Please try with a clearer image."

/-- Fixed label prepended to a successful image extraction's text in
`src/main.go` line 187 (`fmt.Sprintf` with a trailing `%s`). -/
def imageResultLabel : String := "🔍 **Extracted text from image:**\n\n"

/-- Label before the extracted data in the test-endpoint variant's reply
(`src/unnamed/part_000` line 197). -/
def dataResultLabelPre : String :=
  "🔍 **Extracted data from image:**\n\n```json\n"

/-- Text after the extracted data in the test-endpoint variant's reply. -/
def dataResultLabelPost : String := "\n```"

/-- Fixed user-facing string sent when the PDF metadata download fails
(`src/main.go` line 199). -/
def pdfDownloadFailText : String :=
  "Sorry, I couldn't download the PDF. Please try again."

/-- Fixed user-facing string sent when the PDF byte download fails
(`src/main.go` line 208). -/
def pdfContentFailText : String :=
  "Sorry, I couldn't download the PDF content. Please try again."

/-- Fixed user-facing string sent when PDF extraction fails
(`src/main.go` line 217). -/
def pdfExtractFailText : String :=
  "Sorry, I couldn't extract any text from this PDF. Please try with a different document."

/-- Caption of the courtesy image sent back in the PDF flow
(`src/main.go` line 223). -/
def pdfImageCaption : String := "Converted PDF page to image"

/-- Fixed label prepended to a successful PDF extraction's text
(`src/main.go` line 229). -/
def pdfResultLabel : String := "📄 **Extracted text from PDF:**\n\n"

/-- MIME-type check guarding the document flow (`src/main.go` `isPDF`,
lines 572-574). -/
def isPDF (mimeType : String) : Bool :=
  mimeType = "application/pdf"

/-- The photo variant the handler selects:
`update.Message.Photo[len(update.Message.Photo)-1]`, the last element of the
platform-ordered list (`src/main.go` line 166; `src/unnamed/part_000` line
161 names it `latestPhoto`). The default is unreachable because the handler
indexes only under `len > 0`. -/
def largestPhoto (photos : List TelegramPhoto) : TelegramPhoto :=
  photos.getD (photos.length - 1) (TelegramPhoto.mk "" "" 0 0 0)

/-- Webhook handler of `src/main.go` (`handleWebhook`, lines 154-238).
The bind step `c.ShouldBindJSON` is the `Option TelegramUpdate` argument
(`none` = malformed body, answered 400 before anything else). Returns the
acknowledgment and the ordered trace of outbound helper calls; notifier
results are ignored by the Go code (`sendTelegramMessage` return value
dropped, `sendImageToTelegram` error only logged), so the trace records the
calls without consulting an outcome. -/
def handleWebhook (env : Env) : Option TelegramUpdate → Ack × List OutCall
  | none => (Ack.invalidJSON, [])
  | some update =>
    if 0 < update.Message.Photo.length then
      match env.downloadImage (largestPhoto update.Message.Photo).FileID with
      | Except.error _ =>
        (Ack.ok,
         [OutCall.downloadImage (largestPhoto update.Message.Photo).FileID,
          OutCall.sendTelegramMessage update.Message.Chat.ID imageDownloadFailText])
      | Except.ok imageURL =>
        match env.extractTextFromImage imageURL with
        | Except.error _ =>
          (Ack.ok,
           [OutCall.downloadImage (largestPhoto update.Message.Photo).FileID,
            OutCall.extractTextFromImage imageURL,
            OutCall.sendTelegramMessage update.Message.Chat.ID imageExtractFailText])
        | Except.ok extractedText =>
          (Ack.ok,
           [OutCall.downloadImage (largestPhoto update.Message.Photo).FileID,
            OutCall.extractTextFromImage imageURL,
            OutCall.sendTelegramMessage update.Message.Chat.ID
              (imageResultLabel ++ extractedText)])
    else
      match update.Message.Document with
      | some doc =>
        if isPDF doc.MimeType then
          match env.downloadDocument doc.FileID with
          | Except.error _ =>
            (Ack.ok,
             [OutCall.downloadDocument doc.FileID,
              OutCall.sendTelegramMessage update.Message.Chat.ID pdfDownloadFailText])
          | Except.ok pdfURL =>
            match env.downloadFileContent pdfURL with
            | Except.error _ =>
              (Ack.ok,
               [OutCall.downloadDocument doc.FileID,
                OutCall.downloadFileContent pdfURL,
                OutCall.sendTelegramMessage update.Message.Chat.ID pdfContentFailText])
            | Except.ok pdfContent =>
              match env.extractTextFromPDFToImagesWithImage pdfContent with
              | Except.error _ =>
                (Ack.ok,
                 [OutCall.downloadDocument doc.FileID,
                  OutCall.downloadFileContent pdfURL,
                  OutCall.extractTextFromPDFToImagesWithImage pdfContent,
                  OutCall.sendTelegramMessage update.Message.Chat.ID pdfExtractFailText])
              | Except.ok (extractedText, _imageData) =>
                (Ack.ok,
                 [OutCall.downloadDocument doc.FileID,
                  OutCall.downloadFileContent pdfURL,
                  OutCall.extractTextFromPDFToImagesWithImage pdfContent,
                  OutCall.sendImageToTelegram update.Message.Chat.ID pdfImageCaption,
                  OutCall.sendTelegramMessage update.Message.Chat.ID
                    (pdfResultLabel ++ extractedText)])
        else
          (Ack.ok, [])
      | none => (Ack.ok, [])

/-- Webhook handler of the test-endpoint variant (`src/unnamed/part_000`
`handleWebhook`, lines 143-207): photo flow only, with an extra guard that
silently acknowledges when the selected photo's `FileID` is the empty
string (lines 166-170). -/
def handleWebhookV2 (env : EnvV2) : Option TelegramUpdateV2 → Ack × List OutCall
  | none => (Ack.invalidJSON, [])
  | some update =>
    if 0 < update.Message.Photo.length then
      if (largestPhoto update.Message.Photo).FileID = "" then
        (Ack.ok, [])
      else
        match env.downloadImage (largestPhoto update.Message.Photo).FileID with
        | Except.error _ =>
          (Ack.ok,
           [OutCall.downloadImage (largestPhoto update.Message.Photo).FileID,
            OutCall.sendTelegramMessage update.Message.Chat.ID imageDownloadFailText])
        | Except.ok imageURL =>
          match env.extractTextFromImage imageURL with
          | Except.error _ =>
            (Ack.ok,
             [OutCall.downloadImage (largestPhoto update.Message.Photo).FileID,
              OutCall.extractTextFromImage imageURL,
              OutCall.sendTelegramMessage update.Message.Chat.ID imageExtractFailText])
          | Except.ok extractedData =>
            (Ack.ok,
             [OutCall.downloadImage (largestPhoto update.Message.Photo).FileID,
              OutCall.extractTextFromImage imageURL,
              OutCall.sendTelegramMessage update.Message.Chat.ID
                (dataResultLabelPre ++ extractedData ++ dataResultLabelPost)])
    else
      (Ack.ok, [])

/-- Arguments of the `downloadImage` calls in a trace, in order. -/
def downloadImageCalls : List OutCall → List String
  | [] => []
  | OutCall.downloadImage fid :: rest => fid :: downloadImageCalls rest
  | _ :: rest => downloadImageCalls rest

/-- Chat and text of the `sendTelegramMessage` calls in a trace, in order. -/
def sendMessageCalls : List OutCall → List (Int × String)
  | [] => []
  | OutCall.sendTelegramMessage chatID text :: rest =>
    (chatID, text) :: sendMessageCalls rest
  | _ :: rest => sendMessageCalls rest

/-- Arguments of the `extractTextFromImage` calls in a trace, in order. -/
def extractImageCalls : List OutCall → List String
  | [] => []
  | OutCall.extractTextFromImage url :: rest => url :: extractImageCalls rest
  | _ :: rest => extractImageCalls rest

/-- Alphabet of Go `base64.StdEncoding`. -/
def base64Table : String :=
  "ABCDEFGHIJKLMNOPQRSTUVWXYZabcdefghijklmnopqrstuvwxyz0123456789+/"

/-- Character of the standard base64 alphabet at a 6-bit index. -/
def base64Char (n : Nat) : Char :=
  base64Table.toList.getD n 'A'

/-- Go `base64.StdEncoding.EncodeToString` over bytes given as `Nat`s below
256: groups of three bytes become four alphabet characters, a final group
of one or two bytes is padded with `=`. -/
def base64Encode : List Nat → String
  | [] => ""
  | [b0] =>
    String.mk [base64Char (b0 / 4 % 64), base64Char (b0 % 4 * 16), '=', '=']
  | [b0, b1] =>
    String.mk [base64Char (b0 / 4 % 64), base64Char (b0 % 4 * 16 + b1 / 16 % 16),
               base64Char (b1 % 16 * 4), '=']
  | b0 :: b1 :: b2 :: rest =>
    String.mk [base64Char (b0 / 4 % 64), base64Char (b0 % 4 * 16 + b1 / 16 % 16),
               base64Char (b1 % 16 * 4 + b2 / 64 % 4), base64Char (b2 % 64)]
      ++ base64Encode rest

/-- Raw bitmap the go-fitz library returns for one rendered page
(`image.Image` in Go); only its identity matters to this development. -/
structure RawImage where
  data : List Nat
deriving Repr, DecidableEq

/-- Opened go-fitz document: its page count (`doc.NumPage()`) and its page
renderer (`doc.Image(pageNum)`, which can fail). -/
structure FitzDocument where
  numPage : Nat
  image : Nat → Except String RawImage

/-- Page-to-PNG conversion of `src/main.go`
(`convertPDFPageToHighQualityImage`, lines 403-419): renders the requested
page via `doc.Image(pageNum)` and PNG-encodes the bitmap. `pngEncode` is
Go `png.Encode`. Besides the result it returns the pages the call rendered
(always exactly `[pageNum]`: `doc.Image` is invoked once whatever happens
after it). -/
def convertPDFPageToHighQualityImage
    (pngEncode : RawImage → Except String (List Nat))
    (doc : FitzDocument) (pageNum : Nat) :
    Except String (List Nat) × List Nat :=
  match doc.image pageNum with
  | Except.error e =>
    (Except.error ("failed to render PDF page: " ++ e), [pageNum])
  | Except.ok img =>
    match pngEncode img with
    | Except.error e =>
      (Except.error ("failed to encode image: " ++ e), [pageNum])
    | Except.ok imageBytes => (Except.ok imageBytes, [pageNum])

/-- Rasterization pipeline of `src/main.go`
(`extractTextFromPDFToImagesWithImage`, lines 370-400): opens the byte
buffer via go-fitz (`newFromMemory` is `fitz.NewFromMemory`), fails with
`PDF has no pages` when the page count is zero, otherwise converts page
index 0 once, base64-inlines the PNG as a data URI and hands it to the
base64 extractor. Besides the Go result (text and PNG bytes) it returns
the pages rendered by the call. -/
def extractTextFromPDFToImagesWithImage
    (newFromMemory : List Nat → Except String FitzDocument)
    (pngEncode : RawImage → Except String (List Nat))
    (extractBase64 : String → Except String String)
    (pdfContent : List Nat) :
    Except String (String × List Nat) × List Nat :=
  match newFromMemory pdfContent with
  | Except.error e => (Except.error ("failed to open PDF: " ++ e), [])
  | Except.ok doc =>
    if doc.numPage = 0 then
      (Except.error "PDF has no pages", [])
    else
      match convertPDFPageToHighQualityImage pngEncode doc 0 with
      | (Except.error e, pages) =>
        (Except.error ("failed to convert PDF page to image: " ++ e), pages)
      | (Except.ok imageData, pages) =>
        match extractBase64 ("data:image/png;base64," ++ base64Encode imageData) with
        | Except.error e =>
          (Except.error ("failed to extract text from PDF image: " ++ e), pages)
        | Except.ok extractedText =>
          (Except.ok (extractedText, imageData), pages)

/-- Sample photo variant used to instantiate theorems. -/
def photoW : TelegramPhoto := TelegramPhoto.mk "photo-file-1" "uniq-1" 90 60 1234

/-- Larger sample photo variant (the last, highest-resolution one). -/
def photoW2 : TelegramPhoto := TelegramPhoto.mk "photo-file-2" "uniq-2" 800 600 52345

/-- Sample photo variant with an empty file handle. -/
def photoEmptyID : TelegramPhoto := TelegramPhoto.mk "" "uniq-0" 90 60 111

/-- Sample chat used to instantiate theorems. -/
def chatW : TelegramChat := TelegramChat.mk 77 "private" "t"

/-- Sample sender used to instantiate theorems. -/
def userW : TelegramUser := TelegramUser.mk 5 false "Dana" "dana"

/-- Sample update with two photo variants and no document. -/
def uTwoPhotos : TelegramUpdate :=
  TelegramUpdate.mk 42
    (TelegramMessage.mk 1 userW chatW 0 "" [photoW, photoW2] none)

/-- Sample update with no photo and no document. -/
def uBare : TelegramUpdate :=
  TelegramUpdate.mk 43 (TelegramMessage.mk 2 userW chatW 0 "hi" [] none)

/-- Sample update with one photo and a PDF document attached. -/
def uPhotoAndDoc : TelegramUpdate :=
  TelegramUpdate.mk 44
    (TelegramMessage.mk 3 userW chatW 0 "" [photoW]
      (some (TelegramDocument.mk "a.pdf" "application/pdf" "doc-file-1" "du1" 999)))

/-- Sample test-endpoint update with two photo variants. -/
def vTwoPhotos : TelegramUpdateV2 :=
  TelegramUpdateV2.mk 42
    (TelegramMessageV2.mk 1 userW chatW 0 "" [photoW, photoW2])

/-- Sample test-endpoint update with no photo. -/
def vBare : TelegramUpdateV2 :=
  TelegramUpdateV2.mk 43 (TelegramMessageV2.mk 2 userW chatW 0 "hi" [])

/-- Sample test-endpoint update whose selected (last) photo variant has an
empty file handle. -/
def vEmptyFileID : TelegramUpdateV2 :=
  TelegramUpdateV2.mk 45
    (TelegramMessageV2.mk 4 userW chatW 0 "" [photoW, photoEmptyID])

/-- Non-success provider response used to instantiate theorems. -/
def respW : HttpResponse := HttpResponse.mk 500 "upstream failure"

/-- Transport oracle that always delivers `respW`. -/
def transportW : String → Except String HttpResponse :=
  fun _ => Except.ok respW

/-- Decode oracle (per request URL, then body) that always fails. -/
def decodeFW : String → String → Option OpenAIResponse :=
  fun _ _ => none

/-- Sample main-variant environment whose extractor is the embedded
`extractTextFromImage` wired to `transportW` and `decodeFW`, and whose file
resolution succeeds with a fixed URL. -/
def envW : Env :=
  Env.mk (fun _ => Except.ok "https://files.example/x.jpg")
    (fun url => extractTextFromImage (transportW url) (decodeFW url))
    (fun _ => Except.error "unused")
    (fun _ => Except.error "unused")
    (fun _ => Except.error "unused")

/-- Sample main-variant environment: resolution succeeds, extraction
succeeds with a fixed text. -/
def envOkW : Env :=
  Env.mk (fun _ => Except.ok "https://files.example/x.jpg")
    (fun _ => Except.ok "ABC123")
    (fun _ => Except.error "unused")
    (fun _ => Except.error "unused")
    (fun _ => Except.error "unused")

/-- Sample main-variant environment whose file resolution fails. -/
def envDlFailW : Env :=
  Env.mk (fun _ => Except.error "telegram API error: file not found")
    (fun _ => Except.error "unused")
    (fun _ => Except.error "unused")
    (fun _ => Except.error "unused")
    (fun _ => Except.error "unused")

/-- Sample test-endpoint environment: resolution succeeds, extraction
succeeds with a fixed text. -/
def envOkV2W : EnvV2 :=
  EnvV2.mk (fun _ => Except.ok "https://files.example/x.jpg")
    (fun _ => Except.ok "ABC123")

/-- Sample test-endpoint environment whose file resolution fails. -/
def envDlFailV2W : EnvV2 :=
  EnvV2.mk (fun _ => Except.error "telegram API error: file not found")
    (fun _ => Except.error "unused")

/-- Choice content used by the C1 counterexample. -/
def cexChoice : OpenAIChoice :=
  OpenAIChoice.mk 0 (ChoiceMessage.mk "assistant" "INV-001 TOTAL 42.00") "stop"

/-- Decoded shape the C1 counterexample's error body yields. -/
def cexResponse : OpenAIResponse :=
  OpenAIResponse.mk "id1" "chat.completion" 0 "gpt-4o-mini" [cexChoice]

/-- C1 (corrected): in the `src/main.go` variant both extractor operations
fail with the `OpenAI API error` message (the spec's
`ProviderResponseError`) on every delivered response whose status is not
200, before any decode of the body, and the Dispatcher then makes exactly
one notification carrying the fixed extraction-failure string while
acknowledging success; the test-endpoint variant's extractors, however,
never inspect the status: their result on any response equals their result
on the same body with status 200. -/
theorem c1_extractor_nonsuccess_amended
    (decode : String → Option OpenAIResponse) (resp : HttpResponse)
    (env : Env) (u : TelegramUpdate)
    (transport : String → Except String HttpResponse)
    (decodeF : String → String → Option OpenAIResponse) (url0 : String)
    (hs : resp.statusCode ≠ 200)
    (hext : ∀ url, env.extractTextFromImage url
      = extractTextFromImage (transport url) (decodeF url))
    (hlen : 0 < u.Message.Photo.length)
    (hdl : env.downloadImage (largestPhoto u.Message.Photo).FileID
      = Except.ok url0)
    (htr : transport url0 = Except.ok resp) :
    extractTextFromImage (Except.ok resp) decode
      = Except.error ("OpenAI API error: " ++ resp.body)
    ∧ extractTextFromImageBase64 (Except.ok resp) decode
      = Except.error ("OpenAI API error: " ++ resp.body)
    ∧ handleWebhook env (some u)
      = (Ack.ok,
         [OutCall.downloadImage (largestPhoto u.Message.Photo).FileID,
          OutCall.extractTextFromImage url0,
          OutCall.sendTelegramMessage u.Message.Chat.ID imageExtractFailText])
    ∧ extractTextFromImageV2 (Except.ok resp) decode
      = extractTextFromImageV2 (Except.ok (HttpResponse.mk 200 resp.body)) decode
    ∧ extractTextFromImageBase64V2 (Except.ok resp) decode
      = extractTextFromImageBase64V2 (Except.ok (HttpResponse.mk 200 resp.body)) decode := by
  refine ⟨?_, ?_, ?_, rfl, rfl⟩
  · simp [extractTextFromImage, hs]
  · simp [extractTextFromImageBase64, hs]
  · simp only [handleWebhook, if_pos hlen, hdl, hext url0, htr]
    simp [extractTextFromImage, hs]

/-- C1 witness: the amended statement holds at a concrete non-success
response, concrete update and the sample environment. -/
theorem c1_extractor_nonsuccess_amended_witness :
    extractTextFromImage (Except.ok respW) (decodeFW "w")
      = Except.error ("OpenAI API error: " ++ respW.body)
    ∧ extractTextFromImageBase64 (Except.ok respW) (decodeFW "w")
      = Except.error ("OpenAI API error: " ++ respW.body)
    ∧ handleWebhook envW (some uTwoPhotos)
      = (Ack.ok,
         [OutCall.downloadImage (largestPhoto uTwoPhotos.Message.Photo).FileID,
          OutCall.extractTextFromImage "https://files.example/x.jpg",
          OutCall.sendTelegramMessage uTwoPhotos.Message.Chat.ID
            imageExtractFailText])
    ∧ extractTextFromImageV2 (Except.ok respW) (decodeFW "w")
      = extractTextFromImageV2 (Except.ok (HttpResponse.mk 200 respW.body))
          (decodeFW "w")
    ∧ extractTextFromImageBase64V2 (Except.ok respW) (decodeFW "w")
      = extractTextFromImageBase64V2 (Except.ok (HttpResponse.mk 200 respW.body))
          (decodeFW "w") :=
  c1_extractor_nonsuccess_amended (decodeFW "w") respW envW uTwoPhotos
    transportW decodeFW "https://files.example/x.jpg"
    (by decide) (fun _ => rfl) (by decide) rfl rfl

/-- C1 counterexample: in the test-endpoint variant a provider response
with status 500 whose body decodes into a shape with one choice makes the
extractor return that parsed value as a success — it does not return an
error, so the claim's `this holds in every variant` is false. -/
theorem c1_extractor_nonsuccess_cex :
    extractTextFromImageV2 (Except.ok (HttpResponse.mk 500 "error body"))
      (fun _ => some cexResponse)
      = Except.ok "INV-001 TOTAL 42.00" := rfl

/-- C2 (corrected): the `src/main.go` notifier fails on transport error and
fails with the `telegram API error` message (the spec's `NotifyError`) on
every delivered non-success status — it never returns success there; the
test-endpoint variant's notifier, however, fails only on transport error
and returns success whatever the delivered status was. -/
theorem c2_notifier_nonsuccess_amended (e : String) (resp : HttpResponse)
    (hs : resp.statusCode ≠ 200) :
    sendTelegramMessage (Except.error e)
      = Except.error ("failed to send message: " ++ e)
    ∧ sendTelegramMessage (Except.ok resp)
      = Except.error ("telegram API error: " ++ resp.body)
    ∧ sendTelegramMessageV2 (Except.error e)
      = Except.error ("failed to send message: " ++ e)
    ∧ sendTelegramMessageV2 (Except.ok resp) = Except.ok () := by
  refine ⟨rfl, ?_, rfl, rfl⟩
  simp [sendTelegramMessage, hs]

/-- C2 witness: the amended statement holds at a concrete transport error
and a concrete 500 response. -/
theorem c2_notifier_nonsuccess_amended_witness :
    sendTelegramMessage (Except.error "no route to host")
      = Except.error ("failed to send message: " ++ "no route to host")
    ∧ sendTelegramMessage (Except.ok (HttpResponse.mk 500 "Bad Gateway"))
      = Except.error ("telegram API error: "
          ++ (HttpResponse.mk 500 "Bad Gateway").body)
    ∧ sendTelegramMessageV2 (Except.error "no route to host")
      = Except.error ("failed to send message: " ++ "no route to host")
    ∧ sendTelegramMessageV2 (Except.ok (HttpResponse.mk 500 "Bad Gateway"))
      = Except.ok () :=
  c2_notifier_nonsuccess_amended "no route to host"
    (HttpResponse.mk 500 "Bad Gateway") (by decide)

/-- C2 counterexample: the test-endpoint variant's notifier returns success
on a delivered 500 status, so the claim's `this holds in every variant of
the notifier` is false. -/
theorem c2_notifier_nonsuccess_cex :
    sendTelegramMessageV2 (Except.ok (HttpResponse.mk 500 "Internal Server Error"))
      = Except.ok () := rfl

/-- C3 (confirmed): on an update with at least two image variants both
handlers select the photo at the last list position — which is the list's
`getLast` — and its file handle is the only one ever passed to file
resolution: the main handler resolves exactly it, and in the test-endpoint
handler every resolution call (there is none when the guard fires) carries
exactly it. -/
theorem c3_selects_last_variant (env : Env) (env2 : EnvV2)
    (u : TelegramUpdate) (v : TelegramUpdateV2)
    (hu : 2 ≤ u.Message.Photo.length) (hv : 2 ≤ v.Message.Photo.length) :
    downloadImageCalls (handleWebhook env (some u)).2
      = [(largestPhoto u.Message.Photo).FileID]
    ∧ (∀ h : u.Message.Photo ≠ [],
        largestPhoto u.Message.Photo = u.Message.Photo.getLast h)
    ∧ (∀ fid, fid ∈ downloadImageCalls (handleWebhookV2 env2 (some v)).2 →
        fid = (largestPhoto v.Message.Photo).FileID) := by
  have hlen : 0 < u.Message.Photo.length := by omega
  have hlenv : 0 < v.Message.Photo.length := by omega
  refine ⟨?_, ?_, ?_⟩
  · rcases hdl : env.downloadImage (largestPhoto u.Message.Photo).FileID with e | url
    · simp [handleWebhook, hlen, hdl, downloadImageCalls]
    · rcases hex : env.extractTextFromImage url with e | t
      · simp [handleWebhook, hlen, hdl, hex, downloadImageCalls]
      · simp [handleWebhook, hlen, hdl, hex, downloadImageCalls]
  · intro h
    unfold largestPhoto
    rw [List.getLast_eq_getElem, List.getD_eq_getElem]
  · intro fid hmem
    by_cases hid : (largestPhoto v.Message.Photo).FileID = ""
    · simp [handleWebhookV2, hlenv, hid, downloadImageCalls] at hmem
    · rcases hdl : env2.downloadImage (largestPhoto v.Message.Photo).FileID with e | url
      · simp [handleWebhookV2, hlenv, hid, hdl, downloadImageCalls] at hmem
        exact hmem
      · rcases hex : env2.extractTextFromImage url with e | t
        · simp [handleWebhookV2, hlenv, hid, hdl, hex, downloadImageCalls] at hmem
          exact hmem
        · simp [handleWebhookV2, hlenv, hid, hdl, hex, downloadImageCalls] at hmem
          exact hmem

/-- C3 witness: at a concrete two-variant update the main handler resolves
exactly the second (last) variant's file handle. -/
theorem c3_selects_last_variant_witness :
    downloadImageCalls (handleWebhook envOkW (some uTwoPhotos)).2
      = [(largestPhoto uTwoPhotos.Message.Photo).FileID] :=
  (c3_selects_last_variant envOkW envOkV2W uTwoPhotos vTwoPhotos
    (by decide) (by decide)).1

/-- C4 (confirmed): in both variants a body that fails to bind is answered
with the client-error acknowledgment (and nothing else happens), the
client-error acknowledgment carries status 400 and is distinct from the
success acknowledgment, and every bound update — on every control-flow
path, all failure paths included — is answered with the status-200 success
acknowledgment. -/
theorem c4_ack_contract (env : Env) (env2 : EnvV2) :
    handleWebhook env none = (Ack.invalidJSON, [])
    ∧ handleWebhookV2 env2 none = (Ack.invalidJSON, [])
    ∧ Ack.httpStatus Ack.invalidJSON = 400
    ∧ Ack.httpStatus Ack.ok = 200
    ∧ Ack.invalidJSON ≠ Ack.ok
    ∧ (∀ u : TelegramUpdate, (handleWebhook env (some u)).1 = Ack.ok)
    ∧ (∀ v : TelegramUpdateV2, (handleWebhookV2 env2 (some v)).1 = Ack.ok) := by
  refine ⟨rfl, rfl, rfl, rfl, by decide, ?_, ?_⟩
  · intro u
    by_cases hp : 0 < u.Message.Photo.length
    · rcases hdl : env.downloadImage (largestPhoto u.Message.Photo).FileID with e | url
      · simp [handleWebhook, hp, hdl]
      · rcases hex : env.extractTextFromImage url with e | t
        · simp [handleWebhook, hp, hdl, hex]
        · simp [handleWebhook, hp, hdl, hex]
    · rcases hdoc : u.Message.Document with _ | doc
      · simp [handleWebhook, hp, hdoc]
      · by_cases hm : isPDF doc.MimeType
        · rcases h1 : env.downloadDocument doc.FileID with e | url
          · simp [handleWebhook, hp, hdoc, hm, h1]
          · rcases h2 : env.downloadFileContent url with e | content
            · simp [handleWebhook, hp, hdoc, hm, h1, h2]
            · rcases h3 : env.extractTextFromPDFToImagesWithImage content with e | pr
              · simp [handleWebhook, hp, hdoc, hm, h1, h2, h3]
              · rcases pr with ⟨t, img⟩
                simp [handleWebhook, hp, hdoc, hm, h1, h2, h3]
        · simp [handleWebhook, hp, hdoc, hm]
  · intro v
    by_cases hp : 0 < v.Message.Photo.length
    · by_cases hid : (largestPhoto v.Message.Photo).FileID = ""
      · simp [handleWebhookV2, hp, hid]
      · rcases hdl : env2.downloadImage (largestPhoto v.Message.Photo).FileID with e | url
        · simp [handleWebhookV2, hp, hid, hdl]
        · rcases hex : env2.extractTextFromImage url with e | t
          · simp [handleWebhookV2, hp, hid, hdl, hex]
          · simp [handleWebhookV2, hp, hid, hdl, hex]
    · simp [handleWebhookV2, hp]

/-- C5 (confirmed): an update with an empty photo list and no document of a
supported MIME type is acknowledged with success and produces an empty
outbound-call trace, in both variants (the test-endpoint variant has no
document flow at all). -/
theorem c5_bare_update_noop (env : Env) (env2 : EnvV2)
    (u : TelegramUpdate) (v : TelegramUpdateV2) :
    (u.Message.Photo = [] →
      (∀ d, u.Message.Document = some d → isPDF d.MimeType = false) →
      handleWebhook env (some u) = (Ack.ok, []))
    ∧ (v.Message.Photo = [] →
        handleWebhookV2 env2 (some v) = (Ack.ok, [])) := by
  constructor
  · intro hph hdoc
    rcases hd : u.Message.Document with _ | doc
    · simp [handleWebhook, hph, hd]
    · have hm := hdoc doc hd
      simp [handleWebhook, hph, hd, hm]
  · intro hph
    simp [handleWebhookV2, hph]

/-- C5 witness: a concrete update with no photo and no document is a no-op
with the success acknowledgment, in both variants. -/
theorem c5_bare_update_noop_witness :
    handleWebhook envOkW (some uBare) = (Ack.ok, [])
    ∧ handleWebhookV2 envOkV2W (some vBare) = (Ack.ok, []) :=
  ⟨(c5_bare_update_noop envOkW envOkV2W uBare vBare).1 rfl
      (fun d h => by simp [uBare] at h),
   (c5_bare_update_noop envOkW envOkV2W uBare vBare).2 rfl⟩

/-- C6 (confirmed): when file resolution fails on a photo update, the main
handler's whole trace is the resolution call followed by exactly one
notification carrying the fixed download-failure string — so no extraction
call — and the acknowledgment is success; the test-endpoint handler does
the same (provided its empty-handle guard does not fire, without which
resolution is never called). -/
theorem c6_download_failure_notification (env : Env) (env2 : EnvV2)
    (u : TelegramUpdate) (v : TelegramUpdateV2) (e1 : String)
    (hlen : 0 < u.Message.Photo.length)
    (hdl : env.downloadImage (largestPhoto u.Message.Photo).FileID
      = Except.error e1) :
    handleWebhook env (some u)
      = (Ack.ok,
         [OutCall.downloadImage (largestPhoto u.Message.Photo).FileID,
          OutCall.sendTelegramMessage u.Message.Chat.ID imageDownloadFailText])
    ∧ sendMessageCalls (handleWebhook env (some u)).2
      = [(u.Message.Chat.ID, imageDownloadFailText)]
    ∧ extractImageCalls (handleWebhook env (some u)).2 = []
    ∧ (∀ e2, 0 < v.Message.Photo.length →
        (largestPhoto v.Message.Photo).FileID ≠ "" →
        env2.downloadImage (largestPhoto v.Message.Photo).FileID
          = Except.error e2 →
        handleWebhookV2 env2 (some v)
          = (Ack.ok,
             [OutCall.downloadImage (largestPhoto v.Message.Photo).FileID,
              OutCall.sendTelegramMessage v.Message.Chat.ID
                imageDownloadFailText])) := by
  have hmain : handleWebhook env (some u)
      = (Ack.ok,
         [OutCall.downloadImage (largestPhoto u.Message.Photo).FileID,
          OutCall.sendTelegramMessage u.Message.Chat.ID imageDownloadFailText]) := by
    simp [handleWebhook, hlen, hdl]
  refine ⟨hmain, ?_, ?_, ?_⟩
  · rw [hmain]
    simp [sendMessageCalls]
  · rw [hmain]
    simp [extractImageCalls]
  · intro e2 hlenv hid hdl2
    simp [handleWebhookV2, hlenv, hid, hdl2]

/-- C6 witness: at a concrete photo update whose resolution fails, the main
handler notifies once with the fixed download-failure string, makes no
extraction call, and acknowledges with success. -/
theorem c6_download_failure_notification_witness :
    handleWebhook envDlFailW (some uTwoPhotos)
      = (Ack.ok,
         [OutCall.downloadImage (largestPhoto uTwoPhotos.Message.Photo).FileID,
          OutCall.sendTelegramMessage uTwoPhotos.Message.Chat.ID
            imageDownloadFailText])
    ∧ sendMessageCalls (handleWebhook envDlFailW (some uTwoPhotos)).2
      = [(uTwoPhotos.Message.Chat.ID, imageDownloadFailText)]
    ∧ extractImageCalls (handleWebhook envDlFailW (some uTwoPhotos)).2 = []
    ∧ (∀ e2, 0 < vTwoPhotos.Message.Photo.length →
        (largestPhoto vTwoPhotos.Message.Photo).FileID ≠ "" →
        envDlFailV2W.downloadImage
            (largestPhoto vTwoPhotos.Message.Photo).FileID
          = Except.error e2 →
        handleWebhookV2 envDlFailV2W (some vTwoPhotos)
          = (Ack.ok,
             [OutCall.downloadImage
                (largestPhoto vTwoPhotos.Message.Photo).FileID,
              OutCall.sendTelegramMessage vTwoPhotos.Message.Chat.ID
                imageDownloadFailText])) :=
  c6_download_failure_notification envDlFailW envDlFailV2W uTwoPhotos
    vTwoPhotos "telegram API error: file not found" (by decide) rfl

/-- C7 (confirmed): when resolution and extraction both succeed with text
`t`, the main handler's trace ends in exactly one notification whose text
is the fixed label followed by `t` verbatim, and the acknowledgment is
success; the test-endpoint handler notifies once with its fixed label,
then `t` verbatim, then its fixed closing fence. -/
theorem c7_success_notification (env : Env) (env2 : EnvV2)
    (u : TelegramUpdate) (v : TelegramUpdateV2) (url t : String)
    (hlen : 0 < u.Message.Photo.length)
    (hdl : env.downloadImage (largestPhoto u.Message.Photo).FileID
      = Except.ok url)
    (hex : env.extractTextFromImage url = Except.ok t) :
    handleWebhook env (some u)
      = (Ack.ok,
         [OutCall.downloadImage (largestPhoto u.Message.Photo).FileID,
          OutCall.extractTextFromImage url,
          OutCall.sendTelegramMessage u.Message.Chat.ID
            (imageResultLabel ++ t)])
    ∧ sendMessageCalls (handleWebhook env (some u)).2
      = [(u.Message.Chat.ID, imageResultLabel ++ t)]
    ∧ (∀ url2 t2, 0 < v.Message.Photo.length →
        (largestPhoto v.Message.Photo).FileID ≠ "" →
        env2.downloadImage (largestPhoto v.Message.Photo).FileID
          = Except.ok url2 →
        env2.extractTextFromImage url2 = Except.ok t2 →
        handleWebhookV2 env2 (some v)
          = (Ack.ok,
             [OutCall.downloadImage (largestPhoto v.Message.Photo).FileID,
              OutCall.extractTextFromImage url2,
              OutCall.sendTelegramMessage v.Message.Chat.ID
                (dataResultLabelPre ++ t2 ++ dataResultLabelPost)])) := by
  have hmain : handleWebhook env (some u)
      = (Ack.ok,
         [OutCall.downloadImage (largestPhoto u.Message.Photo).FileID,
          OutCall.extractTextFromImage url,
          OutCall.sendTelegramMessage u.Message.Chat.ID
            (imageResultLabel ++ t)]) := by
    simp [handleWebhook, hlen, hdl, hex]
  refine ⟨hmain, ?_, ?_⟩
  · rw [hmain]
    simp [sendMessageCalls]
  · intro url2 t2 hlenv hid hdl2 hex2
    simp [handleWebhookV2, hlenv, hid, hdl2, hex2]

/-- C7 witness: at a concrete photo update whose extraction succeeds with
`ABC123`, both handlers notify exactly once with their fixed label and the
extracted text verbatim. -/
theorem c7_success_notification_witness :
    handleWebhook envOkW (some uPhotoAndDoc)
      = (Ack.ok,
         [OutCall.downloadImage (largestPhoto uPhotoAndDoc.Message.Photo).FileID,
          OutCall.extractTextFromImage "https://files.example/x.jpg",
          OutCall.sendTelegramMessage uPhotoAndDoc.Message.Chat.ID
            (imageResultLabel ++ "ABC123")])
    ∧ sendMessageCalls (handleWebhook envOkW (some uPhotoAndDoc)).2
      = [(uPhotoAndDoc.Message.Chat.ID, imageResultLabel ++ "ABC123")]
    ∧ (∀ url2 t2, 0 < vTwoPhotos.Message.Photo.length →
        (largestPhoto vTwoPhotos.Message.Photo).FileID ≠ "" →
        envOkV2W.downloadImage (largestPhoto vTwoPhotos.Message.Photo).FileID
          = Except.ok url2 →
        envOkV2W.extractTextFromImage url2 = Except.ok t2 →
        handleWebhookV2 envOkV2W (some vTwoPhotos)
          = (Ack.ok,
             [OutCall.downloadImage
                (largestPhoto vTwoPhotos.Message.Photo).FileID,
              OutCall.extractTextFromImage url2,
              OutCall.sendTelegramMessage vTwoPhotos.Message.Chat.ID
                (dataResultLabelPre ++ t2 ++ dataResultLabelPost)])) :=
  c7_success_notification envOkW envOkV2W uPhotoAndDoc vTwoPhotos
    "https://files.example/x.jpg" "ABC123" (by decide) rfl rfl

/-- Update equal to `u` except for its document field (used to state that
the photo flow ignores the document). -/
def withDocument (u : TelegramUpdate) (d : Option TelegramDocument) :
    TelegramUpdate :=
  TelegramUpdate.mk u.UpdateID
    (TelegramMessage.mk u.Message.MessageID u.Message.From u.Message.Chat
      u.Message.Date u.Message.Text u.Message.Photo d)

/-- C9 (confirmed): the main handler processes at most one attachment kind.
With a non-empty photo list its behavior is identical to the same update
with the document removed and its trace never contains a document
resolution; conversely a document resolution appears in the trace only
when the photo list is empty, the update carries a document, that
document's MIME type is `application/pdf`, and the resolved handle is that
document's. -/
theorem c9_photo_precedence (env : Env) (u : TelegramUpdate) :
    (0 < u.Message.Photo.length →
      handleWebhook env (some u) = handleWebhook env (some (withDocument u none))
      ∧ ∀ fid, OutCall.downloadDocument fid ∉ (handleWebhook env (some u)).2)
    ∧ (∀ fid, OutCall.downloadDocument fid ∈ (handleWebhook env (some u)).2 →
        u.Message.Photo = []
        ∧ ∃ d, u.Message.Document = some d ∧ isPDF d.MimeType = true
            ∧ fid = d.FileID) := by
  constructor
  · intro hp
    rcases hdl : env.downloadImage (largestPhoto u.Message.Photo).FileID with e | url
    · constructor
      · simp [handleWebhook, withDocument, hp, hdl]
      · intro fid
        simp [handleWebhook, hp, hdl]
    · rcases hex : env.extractTextFromImage url with e | t
      · constructor
        · simp [handleWebhook, withDocument, hp, hdl, hex]
        · intro fid
          simp [handleWebhook, hp, hdl, hex]
      · constructor
        · simp [handleWebhook, withDocument, hp, hdl, hex]
        · intro fid
          simp [handleWebhook, hp, hdl, hex]
  · intro fid hmem
    by_cases hp : 0 < u.Message.Photo.length
    · exfalso
      rcases hdl : env.downloadImage (largestPhoto u.Message.Photo).FileID with e | url
      · simp [handleWebhook, hp, hdl] at hmem
      · rcases hex : env.extractTextFromImage url with e | t
        · simp [handleWebhook, hp, hdl, hex] at hmem
        · simp [handleWebhook, hp, hdl, hex] at hmem
    · have hempty : u.Message.Photo = [] := by
        rw [← List.length_eq_zero]
        omega
      refine ⟨hempty, ?_⟩
      rcases hdoc : u.Message.Document with _ | doc
      · exfalso
        simp [handleWebhook, hp, hdoc] at hmem
      · by_cases hm : isPDF doc.MimeType
        · refine ⟨doc, rfl, hm, ?_⟩
          rcases h1 : env.downloadDocument doc.FileID with e | url
          · simp [handleWebhook, hp, hdoc, hm, h1] at hmem
            exact hmem
          · rcases h2 : env.downloadFileContent url with e | content
            · simp [handleWebhook, hp, hdoc, hm, h1, h2] at hmem
              exact hmem
            · rcases h3 : env.extractTextFromPDFToImagesWithImage content with e | pr
              · simp [handleWebhook, hp, hdoc, hm, h1, h2, h3] at hmem
                exact hmem
              · rcases pr with ⟨t, img⟩
                simp [handleWebhook, hp, hdoc, hm, h1, h2, h3] at hmem
                exact hmem
        · exfalso
          simp [handleWebhook, hp, hdoc, hm] at hmem

/-- C9 witness: at a concrete update carrying both a photo and a PDF
document, the handler behaves exactly as on the document-free update and
never resolves the document. -/
theorem c9_photo_precedence_witness :
    handleWebhook envOkW (some uPhotoAndDoc)
      = handleWebhook envOkW (some (withDocument uPhotoAndDoc none))
    ∧ ∀ fid, OutCall.downloadDocument fid
        ∉ (handleWebhook envOkW (some uPhotoAndDoc)).2 :=
  (c9_photo_precedence envOkW uPhotoAndDoc).1 (by decide)

/-- C10 (confirmed): in the test-endpoint variant, a photo update whose
selected (last) variant has an empty file handle is acknowledged with
success and produces no outbound call at all. -/
theorem c10_empty_handle_guard (env2 : EnvV2) (v : TelegramUpdateV2)
    (hlen : 0 < v.Message.Photo.length)
    (hid : (largestPhoto v.Message.Photo).FileID = "") :
    handleWebhookV2 env2 (some v) = (Ack.ok, []) := by
  simp [handleWebhookV2, hlen, hid]

/-- C10 witness: a concrete update whose last photo variant carries an
empty file handle is a silent success no-op. -/
theorem c10_empty_handle_guard_witness :
    handleWebhookV2 envOkV2W (some vEmptyFileID) = (Ack.ok, []) :=
  c10_empty_handle_guard envOkV2W vEmptyFileID (by decide) (by decide)

/-- Every call of the page converter renders exactly its requested page,
whatever happens afterwards. -/
theorem convertPDFPage_renders_requested
    (pngEncode : RawImage → Except String (List Nat))
    (doc : FitzDocument) (pageNum : Nat) :
    (convertPDFPageToHighQualityImage pngEncode doc pageNum).2 = [pageNum] := by
  unfold convertPDFPageToHighQualityImage
  rcases hi : doc.image pageNum with e | img
  · simp [hi]
  · rcases hp : pngEncode img with e | b <;> simp [hi, hp]

/-- Sample rendered bitmap for the C8 witness. -/
def rawImageW : RawImage := RawImage.mk [1, 2, 3]

/-- Sample opened one-page document whose render always succeeds. -/
def docW : FitzDocument := FitzDocument.mk 1 (fun _ => Except.ok rawImageW)

/-- Document opener that always yields `docW`. -/
def newFromMemoryW : List Nat → Except String FitzDocument :=
  fun _ => Except.ok docW

/-- PNG encoder that yields the bitmap's bytes. -/
def pngEncodeW : RawImage → Except String (List Nat) :=
  fun img => Except.ok img.data

/-- Base64 extractor oracle returning a fixed text. -/
def extractBase64W : String → Except String String :=
  fun _ => Except.ok "PDF TEXT"

/-- C8 (confirmed): when the document opens, a zero page count fails with
the `PDF has no pages` error and renders nothing; a non-zero page count
renders exactly page index 0 exactly once whatever the total count, and
when render, PNG encode and extraction all succeed the result carries
exactly the PNG encoding of that single rendered bitmap. -/
theorem c8_rasterizes_first_page_only
    (newFromMemory : List Nat → Except String FitzDocument)
    (pngEncode : RawImage → Except String (List Nat))
    (extractBase64 : String → Except String String)
    (pdfContent : List Nat) (doc : FitzDocument)
    (hopen : newFromMemory pdfContent = Except.ok doc) :
    (doc.numPage = 0 →
      extractTextFromPDFToImagesWithImage newFromMemory pngEncode
          extractBase64 pdfContent
        = (Except.error "PDF has no pages", []))
    ∧ (doc.numPage ≠ 0 →
        (extractTextFromPDFToImagesWithImage newFromMemory pngEncode
            extractBase64 pdfContent).2 = [0])
    ∧ (∀ img imageBytes t, doc.numPage ≠ 0 →
        doc.image 0 = Except.ok img →
        pngEncode img = Except.ok imageBytes →
        extractBase64 ("data:image/png;base64," ++ base64Encode imageBytes)
          = Except.ok t →
        extractTextFromPDFToImagesWithImage newFromMemory pngEncode
            extractBase64 pdfContent
          = (Except.ok (t, imageBytes), [0])) := by
  refine ⟨?_, ?_, ?_⟩
  · intro h0
    simp [extractTextFromPDFToImagesWithImage, hopen, h0]
  · intro hnp
    have hpg := convertPDFPage_renders_requested pngEncode doc 0
    simp only [extractTextFromPDFToImagesWithImage, hopen]
    rw [if_neg hnp]
    rcases hc : convertPDFPageToHighQualityImage pngEncode doc 0 with ⟨r, pages⟩
    rw [hc] at hpg
    rcases r with e | imageData
    · simpa using hpg
    · rcases hx : extractBase64 ("data:image/png;base64," ++ base64Encode imageData)
        with e | t
      · simpa [hx] using hpg
      · simpa [hx] using hpg
  · intro img imageBytes t hnp himg hpng hext
    simp only [extractTextFromPDFToImagesWithImage, hopen,
      convertPDFPageToHighQualityImage, himg, hpng]
    rw [if_neg hnp]
    simp [hext]

/-- C8 witness: at a concrete one-page document whose render, encoding and
extraction succeed, the pipeline returns the extracted text with the PNG
bytes of page 0 and renders exactly page 0 once. -/
theorem c8_rasterizes_first_page_only_witness :
    extractTextFromPDFToImagesWithImage newFromMemoryW pngEncodeW
        extractBase64W [37, 80, 68, 70]
      = (Except.ok ("PDF TEXT", rawImageW.data), [0]) :=
  (c8_rasterizes_first_page_only newFromMemoryW pngEncodeW extractBase64W
    [37, 80, 68, 70] docW rfl).2.2 rawImageW rawImageW.data "PDF TEXT"
    (by decide) rfl rfl rfl

end AliasAutoInvoice
